import Mathlib

/-!
Verification of the sample driver script `mongo-vcore-agent-python/agent.py`.

The script is modelled as an event-trace semantics.  The two external
collaborators — the credential resolver (`DefaultAzureCredential`) and the
agent SDK (`AzureOpenAIChatClient` with its `create_agent` and `run`
capabilities) — are parameters of the model: each is a record of functions
returning `Except`, so a mocked client is just a concrete instance.  The
driver `runScript` mirrors `agent.py` line by line: module-level code
(credential construction, `get_token`, client construction, `create_agent`)
runs unconditionally, while the prompt run and the print are behind the
`__main__` guard, represented by the boolean `isMain`.  Any exception
raised by an external call propagates uncaught: the trace stops at the
failing call and the exit code is 1.
-/

namespace CosmosAgent

/-- Configuration tuple handed to `AzureOpenAIChatClient` in `agent.py`:
the three `os.getenv` results (which are `None` when the variable is
absent, hence `Option String`) and the hard-coded `api_key=""`. -/
structure Config where
  endpoint : Option String
  deployment_name : Option String
  api_version : Option String
  api_key : String
deriving DecidableEq, Repr

/-- Response object returned by `agent.run`, exposing a `text` field. -/
structure Response where
  text : String
deriving DecidableEq, Repr

/-- External collaborator: the credential resolver.  `get_token` maps a
resource scope to an access token, or raises. -/
structure Credential where
  get_token : String → Except String String

/-- External collaborator: the agent SDK.  `create_agent` receives the
configuration of the client it was called on plus the `instructions` and
`name` keyword arguments; `run` receives the configuration and the prompt
string and yields the response object, or raises. -/
structure ClientSDK where
  create_agent : Config → String → String → Except String Unit
  run : Config → String → Except String Response

/-- Observable events of one execution of the script, in program order. -/
inductive Event where
  | get_token (scope : String)
  | construct_client (cfg : Config)
  | create_agent (cfg : Config) (instructions name : String)
  | run (prompt : String)
  | print (s : String)
deriving DecidableEq, Repr

/-- Whether an event is an agent-creation call. -/
def Event.isCreate : Event → Bool
  | .create_agent _ _ _ => true
  | _ => false

/-- Whether an event is a run (prompt) call. -/
def Event.isRun : Event → Bool
  | .run _ => true
  | _ => false

/-- Whether an event is a credential-token request. -/
def Event.isGetToken : Event → Bool
  | .get_token _ => true
  | _ => false

/-- The fixed resource scope string of `credential.get_token` in `agent.py`. -/
def tokenScope : String := "https://ai.azure.com/.default"

/-- The fixed `instructions` argument of `create_agent` in `agent.py`. -/
def agentInstructions : String := "You are good at telling jokes."

/-- The fixed `name` argument of `create_agent` in `agent.py`. -/
def agentName : String := "Joker"

/-- The fixed prompt of the single `agent.run` call in `agent.py`. -/
def promptText : String := "Tell me a joke about a pirate."

/-- The configuration built at the `AzureOpenAIChatClient(...)` call site:
three environment lookups and the literal empty API key. -/
def env_config (env : String → Option String) : Config :=
  { endpoint := env "AZURE_OPENAI_ENDPOINT"
    deployment_name := env "AZURE_OPENAI_CHAT_DEPLOYMENT_NAME"
    api_version := env "AZURE_OPENAI_API_VERSION"
    api_key := "" }

/-- The observable outcome of one execution: the ordered event trace, the
lines written to standard output, and the process exit code (0 on success,
1 when an exception propagates uncaught). -/
structure ExecResult where
  trace : List Event
  output : List String
  exitCode : Nat
deriving DecidableEq, Repr

/-- Shallow embedding of `agent.py`.  Module-level statements first:
`credential.get_token(tokenScope)`, then construction of the client from
the environment, then `create_agent`.  When `isMain` holds (the script is
executed, not imported), `asyncio.run(main())` performs the single
`agent.run(promptText)` and prints the response text.  A failing external
call ends the trace there with exit code 1. -/
def runScript (env : String → Option String) (cred : Credential) (sdk : ClientSDK)
    (isMain : Bool) : ExecResult :=
  match cred.get_token tokenScope with
  | .error _ => { trace := [.get_token tokenScope], output := [], exitCode := 1 }
  | .ok _token =>
    match sdk.create_agent (env_config env) agentInstructions agentName with
    | .error _ =>
      { trace := [.get_token tokenScope, .construct_client (env_config env),
                  .create_agent (env_config env) agentInstructions agentName],
        output := [], exitCode := 1 }
    | .ok _ =>
      if isMain then
        match sdk.run (env_config env) promptText with
        | .error _ =>
          { trace := [.get_token tokenScope, .construct_client (env_config env),
                      .create_agent (env_config env) agentInstructions agentName,
                      .run promptText],
            output := [], exitCode := 1 }
        | .ok r =>
          { trace := [.get_token tokenScope, .construct_client (env_config env),
                      .create_agent (env_config env) agentInstructions agentName,
                      .run promptText, .print r.text],
            output := [r.text], exitCode := 0 }
      else
        { trace := [.get_token tokenScope, .construct_client (env_config env),
                    .create_agent (env_config env) agentInstructions agentName],
          output := [], exitCode := 0 }

/-- Mock environment holding all three consumed variables. -/
def testEnv : String → Option String := fun k =>
  if k = "AZURE_OPENAI_ENDPOINT" then some "https://example.openai.azure.com/"
  else if k = "AZURE_OPENAI_CHAT_DEPLOYMENT_NAME" then some "gpt-4o"
  else if k = "AZURE_OPENAI_API_VERSION" then some "2024-10-21"
  else none

/-- Mock environment with every variable absent. -/
def emptyEnv : String → Option String := fun _ => none

/-- Mock credential resolver that always yields a token. -/
def okCred : Credential := ⟨fun _ => Except.ok "token-one"⟩

/-- Second mock credential resolver, yielding a different token value. -/
def otherCred : Credential := ⟨fun _ => Except.ok "token-two"⟩

/-- Mock credential resolver whose token request raises. -/
def failCred : Credential := ⟨fun _ => Except.error "credential failure"⟩

/-- Mock SDK on which both calls succeed. -/
def okSDK : ClientSDK :=
  ⟨fun _ _ _ => Except.ok (), fun _ _ => Except.ok ⟨"Why did the pirate walk the plank?"⟩⟩

/-- Mock SDK whose `create_agent` call raises. -/
def createFailSDK : ClientSDK :=
  ⟨fun _ _ _ => Except.error "create failed", fun _ _ => Except.ok ⟨"unused"⟩⟩

/-- Mock SDK whose `run` call raises. -/
def runFailSDK : ClientSDK :=
  ⟨fun _ _ _ => Except.ok (), fun _ _ => Except.error "run failed"⟩

/-- Mock environment in which every variable, whatever its name, is set to
the value "secret-key". -/
def secretEnv : String → Option String := fun _ => some "secret-key"

/-- Claim C6: whatever the environment, credential resolver, SDK behaviour
and entry mode, the trace of `runScript` contains at most one run call:
the driver never issues a second run request. -/
theorem run_at_most_once (env : String → Option String) (cred : Credential)
    (sdk : ClientSDK) (isMain : Bool) :
    ((runScript env cred sdk isMain).trace.filter Event.isRun).length ≤ 1 := by
  unfold runScript
  cases cred.get_token tokenScope with
  | error e => simp [Event.isRun]
  | ok t =>
    cases sdk.create_agent (env_config env) agentInstructions agentName with
    | error e => simp [Event.isRun]
    | ok u =>
      cases isMain with
      | false => simp [Event.isRun]
      | true =>
        cases sdk.run (env_config env) promptText with
        | error e => simp [Event.isRun]
        | ok r => simp [Event.isRun]

/-- Claim C7: on every execution the credential resolver is invoked exactly
once, with the fixed scope string, and that invocation is the very first
event of the trace — in particular it precedes the construction of the
agent client. -/
theorem token_once_before_client (env : String → Option String) (cred : Credential)
    (sdk : ClientSDK) (isMain : Bool) :
    (runScript env cred sdk isMain).trace.filter Event.isGetToken =
      [Event.get_token "https://ai.azure.com/.default"] ∧
    (runScript env cred sdk isMain).trace.head? =
      some (Event.get_token "https://ai.azure.com/.default") := by
  unfold runScript
  cases cred.get_token tokenScope with
  | error e => simp [Event.isGetToken, tokenScope]
  | ok t =>
    cases sdk.create_agent (env_config env) agentInstructions agentName with
    | error e => simp [Event.isGetToken, tokenScope]
    | ok u =>
      cases isMain with
      | false => simp [Event.isGetToken, tokenScope]
      | true =>
        cases sdk.run (env_config env) promptText with
        | error e => simp [Event.isGetToken, tokenScope]
        | ok r => simp [Event.isGetToken, tokenScope]

/-- Claim C1: for a valid configuration and any mocked client on which the
module-level calls succeed, running the driver as main performs exactly one
create-agent call, with name "Joker" and the fixed instruction string, and
afterwards exactly one run call with exactly the fixed prompt text; no
other create or run calls occur in the trace. -/
theorem create_then_run_once (env : String → Option String) (cred : Credential)
    (sdk : ClientSDK) (t : String) (ht : cred.get_token tokenScope = Except.ok t)
    (hc : sdk.create_agent (env_config env) agentInstructions agentName = Except.ok ()) :
    ∃ rest : List Event,
      (runScript env cred sdk true).trace =
        [Event.get_token tokenScope, Event.construct_client (env_config env),
         Event.create_agent (env_config env) "You are good at telling jokes." "Joker",
         Event.run "Tell me a joke about a pirate."] ++ rest ∧
      ∀ e ∈ rest, e.isCreate = false ∧ e.isRun = false := by
  unfold runScript
  rw [ht, hc]
  cases hr : sdk.run (env_config env) promptText with
  | error e =>
    exact ⟨[], by simp [agentInstructions, agentName, promptText]⟩
  | ok r =>
    refine ⟨[Event.print r.text], ?_⟩
    simp [agentInstructions, agentName, promptText, Event.isCreate, Event.isRun]

/-- Claim C2: whatever response object the mocked client returns from the
run call, the text written to standard output is exactly the response
object's text field, untransformed. -/
theorem output_is_response_text (env : String → Option String) (cred : Credential)
    (sdk : ClientSDK) (t : String) (r : Response)
    (ht : cred.get_token tokenScope = Except.ok t)
    (hc : sdk.create_agent (env_config env) agentInstructions agentName = Except.ok ())
    (hr : sdk.run (env_config env) promptText = Except.ok r) :
    (runScript env cred sdk true).output = [r.text] := by
  unfold runScript
  rw [ht, hc, hr]
  rfl

/-- Claim C3, refuted as stated: the claim asserts that every element of
the configuration tuple, the API key included, is sourced from the process
environment.  In `agent.py` the API key is the literal `api_key=""`
(line 15): even in an environment where every variable — any key name the
script could possibly read — is set to "secret-key", the constructed
configuration carries the empty API key, not the environment value. -/
theorem api_key_not_from_environment :
    secretEnv "AZURE_OPENAI_API_KEY" = some "secret-key" ∧
    (env_config secretEnv).api_key = "" ∧
    (env_config secretEnv).api_key ≠ "secret-key" := by
  refine ⟨rfl, rfl, ?_⟩
  decide

/-- Claim C3 as amended: the endpoint URL, deployment name and API version
given to the agent client are each exactly the corresponding environment
lookup, while the API key is the hard-coded empty string rather than an
environment value, and no validation happens before the client is
constructed: whatever the environment holds — including absent values —
once the token request succeeds, the client-construction event with
precisely that configuration occurs in the trace. -/
theorem config_from_environment (env : String → Option String) :
    (env_config env).endpoint = env "AZURE_OPENAI_ENDPOINT" ∧
    (env_config env).deployment_name = env "AZURE_OPENAI_CHAT_DEPLOYMENT_NAME" ∧
    (env_config env).api_version = env "AZURE_OPENAI_API_VERSION" ∧
    (env_config env).api_key = "" ∧
    ∀ (cred : Credential) (sdk : ClientSDK) (isMain : Bool) (t : String),
      cred.get_token tokenScope = Except.ok t →
      Event.construct_client (env_config env) ∈ (runScript env cred sdk isMain).trace := by
  refine ⟨rfl, rfl, rfl, rfl, ?_⟩
  intro cred sdk isMain t ht
  unfold runScript
  rw [ht]
  cases sdk.create_agent (env_config env) agentInstructions agentName with
  | error e => simp
  | ok u =>
    cases isMain with
    | false => simp
    | true =>
      cases sdk.run (env_config env) promptText with
      | error e => simp
      | ok r => simp

/-- Claim C4: in an environment missing at least one required variable, the
driver itself performs no check: the configuration with the absent value is
still handed to the client (the construction event occurs), and when the
downstream client call consequently fails — at agent creation or at the
run — the process exits non-zero having printed nothing. -/
theorem missing_env_fails_without_output (env : String → Option String)
    (cred : Credential) (sdk : ClientSDK) (t : String)
    (_hmiss : env "AZURE_OPENAI_ENDPOINT" = none ∨
      env "AZURE_OPENAI_CHAT_DEPLOYMENT_NAME" = none ∨
      env "AZURE_OPENAI_API_VERSION" = none)
    (ht : cred.get_token tokenScope = Except.ok t)
    (hfail : (∃ e, sdk.create_agent (env_config env) agentInstructions agentName =
        Except.error e) ∨
      (sdk.create_agent (env_config env) agentInstructions agentName = Except.ok () ∧
        ∃ e, sdk.run (env_config env) promptText = Except.error e)) :
    Event.construct_client (env_config env) ∈ (runScript env cred sdk true).trace ∧
    (runScript env cred sdk true).output = [] ∧
    (runScript env cred sdk true).exitCode ≠ 0 := by
  unfold runScript
  rw [ht]
  rcases hfail with ⟨e, hc⟩ | ⟨hc, e, hr⟩
  · rw [hc]
    simp
  · rw [hc, hr]
    simp

/-- Claim C5: every failure of an external call propagates uncaught and
stops the script there: a failing token request, a failing agent creation,
or a failing run each leave exactly the trace up to and including the
failing call, an empty output, and exit code 1 — no handler, no retry, no
further request. -/
theorem failure_propagates (env : String → Option String) (cred : Credential)
    (sdk : ClientSDK) (isMain : Bool) :
    (∀ e, cred.get_token tokenScope = Except.error e →
      runScript env cred sdk isMain =
        { trace := [Event.get_token tokenScope], output := [], exitCode := 1 }) ∧
    (∀ t e, cred.get_token tokenScope = Except.ok t →
      sdk.create_agent (env_config env) agentInstructions agentName = Except.error e →
      runScript env cred sdk isMain =
        { trace := [Event.get_token tokenScope, Event.construct_client (env_config env),
                    Event.create_agent (env_config env) agentInstructions agentName],
          output := [], exitCode := 1 }) ∧
    (∀ t e, cred.get_token tokenScope = Except.ok t →
      sdk.create_agent (env_config env) agentInstructions agentName = Except.ok () →
      sdk.run (env_config env) promptText = Except.error e →
      runScript env cred sdk true =
        { trace := [Event.get_token tokenScope, Event.construct_client (env_config env),
                    Event.create_agent (env_config env) agentInstructions agentName,
                    Event.run promptText],
          output := [], exitCode := 1 }) := by
  refine ⟨?_, ?_, ?_⟩
  · intro e he
    unfold runScript
    rw [he]
  · intro t e ht hc
    unfold runScript
    rw [ht, hc]
  · intro t e ht hc hr
    unfold runScript
    rw [ht, hc, hr]
    simp

/-- Claim C8: on a successful execution as main, the script produces
exactly the fixed sequence — token request, client construction from the
environment, agent creation with the fixed name and instruction, the
single prompt run, and the print of the response text — with the response
text as the sole output line and exit code 0. -/
theorem successful_order (env : String → Option String) (cred : Credential)
    (sdk : ClientSDK) (t : String) (r : Response)
    (ht : cred.get_token tokenScope = Except.ok t)
    (hc : sdk.create_agent (env_config env) agentInstructions agentName = Except.ok ())
    (hr : sdk.run (env_config env) promptText = Except.ok r) :
    runScript env cred sdk true =
      { trace := [Event.get_token "https://ai.azure.com/.default",
                  Event.construct_client (env_config env),
                  Event.create_agent (env_config env)
                    "You are good at telling jokes." "Joker",
                  Event.run "Tell me a joke about a pirate.",
                  Event.print r.text],
        output := [r.text], exitCode := 0 } := by
  unfold runScript
  rw [ht, hc, hr]
  simp [tokenScope, agentInstructions, agentName, promptText]

/-- Claim C9: the access token never reaches the agent client — the client
configuration carries the hard-coded empty API key — so two executions
differing only in the token value returned by the credential resolver are
observationally identical: same trace, same output, same exit code. -/
theorem token_noninterference (env : String → Option String) (sdk : ClientSDK)
    (isMain : Bool) (cred1 cred2 : Credential) (t1 t2 : String)
    (h1 : cred1.get_token tokenScope = Except.ok t1)
    (h2 : cred2.get_token tokenScope = Except.ok t2) :
    (env_config env).api_key = "" ∧
    runScript env cred1 sdk isMain = runScript env cred2 sdk isMain := by
  refine ⟨rfl, ?_⟩
  unfold runScript
  rw [h1, h2]

/-- Claim C10: when the module is imported rather than executed as main
(`isMain = false`), the trace never contains a run call and nothing is
printed, yet the module-level effects still happen: the token request is
always the first event, and once it succeeds the agent-creation call also
occurs. -/
theorem import_triggers_load_but_no_run (env : String → Option String)
    (cred : Credential) (sdk : ClientSDK) :
    (runScript env cred sdk false).trace.filter Event.isRun = [] ∧
    (runScript env cred sdk false).output = [] ∧
    Event.get_token tokenScope ∈ (runScript env cred sdk false).trace ∧
    (∀ t, cred.get_token tokenScope = Except.ok t →
      Event.create_agent (env_config env) agentInstructions agentName ∈
        (runScript env cred sdk false).trace) := by
  refine ⟨?_, ?_, ?_, ?_⟩
  · unfold runScript
    cases cred.get_token tokenScope with
    | error e => simp [Event.isRun]
    | ok t =>
      cases sdk.create_agent (env_config env) agentInstructions agentName with
      | error e => simp [Event.isRun]
      | ok u => simp [Event.isRun]
  · unfold runScript
    cases cred.get_token tokenScope with
    | error e => rfl
    | ok t =>
      cases sdk.create_agent (env_config env) agentInstructions agentName with
      | error e => rfl
      | ok u => rfl
  · unfold runScript
    cases cred.get_token tokenScope with
    | error e => simp
    | ok t =>
      cases sdk.create_agent (env_config env) agentInstructions agentName with
      | error e => simp
      | ok u => simp
  · intro t ht
    unfold runScript
    rw [ht]
    cases sdk.create_agent (env_config env) agentInstructions agentName with
    | error e => simp
    | ok u => simp

/-- Witness for C1 at the concrete mocks: create-then-run shape of the trace. -/
theorem create_then_run_once_witness :
    ∃ rest : List Event,
      (runScript testEnv okCred okSDK true).trace =
        [Event.get_token tokenScope, Event.construct_client (env_config testEnv),
         Event.create_agent (env_config testEnv)
           "You are good at telling jokes." "Joker",
         Event.run "Tell me a joke about a pirate."] ++ rest ∧
      ∀ e ∈ rest, e.isCreate = false ∧ e.isRun = false :=
  create_then_run_once testEnv okCred okSDK "token-one" rfl rfl

/-- Witness for C2 at the concrete mocks: the printed line is the mock
response text. -/
theorem output_is_response_text_witness :
    (runScript testEnv okCred okSDK true).output =
      ["Why did the pirate walk the plank?"] :=
  output_is_response_text testEnv okCred okSDK "token-one"
    ⟨"Why did the pirate walk the plank?"⟩ rfl rfl rfl

/-- Witness for C3 at the empty environment: the client is still
constructed, from a configuration of absent values. -/
theorem config_from_environment_witness :
    Event.construct_client (env_config emptyEnv) ∈
      (runScript emptyEnv okCred okSDK true).trace :=
  (config_from_environment emptyEnv).2.2.2.2 okCred okSDK true "token-one" rfl

/-- Witness for C4 at the empty environment with a failing downstream
create call. -/
theorem missing_env_fails_without_output_witness :
    Event.construct_client (env_config emptyEnv) ∈
      (runScript emptyEnv okCred createFailSDK true).trace ∧
    (runScript emptyEnv okCred createFailSDK true).output = [] ∧
    (runScript emptyEnv okCred createFailSDK true).exitCode ≠ 0 :=
  missing_env_fails_without_output emptyEnv okCred createFailSDK "token-one"
    (Or.inl rfl) rfl (Or.inl ⟨"create failed", rfl⟩)

/-- Witness for C5 at the three concrete failing mocks, one per failing
call site. -/
theorem failure_propagates_witness :
    runScript testEnv failCred okSDK true =
      { trace := [Event.get_token tokenScope], output := [], exitCode := 1 } ∧
    runScript testEnv okCred createFailSDK true =
      { trace := [Event.get_token tokenScope, Event.construct_client (env_config testEnv),
                  Event.create_agent (env_config testEnv) agentInstructions agentName],
        output := [], exitCode := 1 } ∧
    runScript testEnv okCred runFailSDK true =
      { trace := [Event.get_token tokenScope, Event.construct_client (env_config testEnv),
                  Event.create_agent (env_config testEnv) agentInstructions agentName,
                  Event.run promptText],
        output := [], exitCode := 1 } :=
  ⟨(failure_propagates testEnv failCred okSDK true).1 "credential failure" rfl,
   (failure_propagates testEnv okCred createFailSDK true).2.1
     "token-one" "create failed" rfl rfl,
   (failure_propagates testEnv okCred runFailSDK true).2.2
     "token-one" "run failed" rfl rfl rfl⟩

/-- Witness for C8 at the concrete mocks: the full successful trace. -/
theorem successful_order_witness :
    runScript testEnv okCred okSDK true =
      { trace := [Event.get_token "https://ai.azure.com/.default",
                  Event.construct_client (env_config testEnv),
                  Event.create_agent (env_config testEnv)
                    "You are good at telling jokes." "Joker",
                  Event.run "Tell me a joke about a pirate.",
                  Event.print "Why did the pirate walk the plank?"],
        output := ["Why did the pirate walk the plank?"], exitCode := 0 } :=
  successful_order testEnv okCred okSDK "token-one"
    ⟨"Why did the pirate walk the plank?"⟩ rfl rfl rfl

/-- Witness for C9 at two concrete resolvers differing only in the token
value. -/
theorem token_noninterference_witness :
    (env_config testEnv).api_key = "" ∧
    runScript testEnv okCred okSDK true = runScript testEnv otherCred okSDK true :=
  token_noninterference testEnv okSDK true okCred otherCred
    "token-one" "token-two" rfl rfl

/-- Witness for C10 at the concrete mocks: importing performs agent
creation but no run. -/
theorem import_triggers_load_but_no_run_witness :
    (runScript testEnv okCred okSDK false).trace.filter Event.isRun = [] ∧
    Event.create_agent (env_config testEnv) agentInstructions agentName ∈
      (runScript testEnv okCred okSDK false).trace :=
  ⟨(import_triggers_load_but_no_run testEnv okCred okSDK).1,
   (import_triggers_load_but_no_run testEnv okCred okSDK).2.2.2 "token-one" rfl⟩

end CosmosAgent
